import Mathlib

/-!
Verification of the live edge-scoring engine (edge detection algorithm v2)
and the sibling pace-score ("Mateo") calculator.

The edge engine is floating-point code; we embed it over the real numbers ℝ
(idealized exact arithmetic, with the JavaScript `Math.max`/`Math.min` floors
made explicit).  The Mateo calculator involves no transcendental functions,
so it is embedded over ℚ and is fully executable.
-/

namespace DeezStats

/-- Sport discriminator (`sport?: "nba" | "nfl"`). -/
inductive Sport
| nba
| nfl
deriving DecidableEq

/-- Stat types that are rare/discrete events suitable for Poisson modeling
(`POISSON_STAT_TYPES` set in the source). -/
def POISSON_STAT_TYPES : List String :=
  ["steals", "blocks", "three_pointers", "touchdowns"]

/-- The stat-type key for steals. -/
def stealsStat : String := "steals"

/-- The stat-type key for rebounds. -/
def reboundsStat : String := "rebounds"

/-- Stat-type dampening factors (`STAT_DAMPENING` record), with the
call-site default `?? 1.0` for unknown stat types folded in. -/
noncomputable def STAT_DAMPENING (statType : String) : ℝ :=
  if statType = "points" then 1.0
  else if statType = "rebounds" then 1.3
  else if statType = "assists" then 1.2
  else if statType = "three_pointers" then 2.0
  else if statType = "steals" then 2.5
  else if statType = "blocks" then 2.5
  else if statType = "passing_yards" then 1.0
  else if statType = "rushing_yards" then 1.2
  else if statType = "receiving_yards" then 1.3
  else if statType = "receptions" then 1.25
  else if statType = "touchdowns" then 2.0
  else 1.0

/-- The `EdgeInput` interface.  Optional TypeScript fields become `Option`. -/
structure EdgeInput where
  currentValue : ℝ
  gameElapsedPercent : ℝ
  pregameLine : ℝ
  gamesPlayed : ℝ
  historicalStddev : Option ℝ
  isRookie : Option Bool
  minutesPlayed : Option ℝ
  expectedMinutes : Option ℝ
  statType : Option String
  scoreDifferential : Option ℝ
  period : Option ℝ
  personalFouls : Option ℝ
  seasonAverage : Option ℝ
  usagePercentage : Option ℝ
  gamePace : Option ℝ
  sport : Option Sport

/-- Signal tier of an edge score. -/
inductive Signal
| none
| monitor
| good
| strong
deriving DecidableEq

/-- Numeric rank of a signal tier, for stating monotonicity
(none < monitor < good < strong). -/
def Signal.rank : Signal → ℕ
| Signal.none => 0
| Signal.monitor => 1
| Signal.good => 2
| Signal.strong => 3

/-- The `components` record of `EdgeResult`. -/
structure EdgeComponents where
  paceRatio : ℝ
  adjustedPaceRatio : ℝ
  statDampening : ℝ
  dataScarcity : ℝ
  gameTiming : ℝ
  variancePenalty : ℝ
  bayesianProjection : ℝ
  blowoutFactor : ℝ
  usageMultiplier : ℝ
  gamePaceMultiplier : ℝ
  poissonConfidence : ℝ
  foulTroubleReduction : ℝ
  effectiveExpectedMinutes : ℝ

/-- The `EdgeResult` interface. -/
structure EdgeResult where
  edgeScore : ℝ
  pace : ℝ
  projectedFinal : ℝ
  signal : Signal
  components : EdgeComponents

/-- Source `poissonCDF(k, lambda)`: P(X ≤ k) for a Poisson with rate lambda,
computed as the sum of PMF terms e^(-λ) λ^i / i! for i = 0 .. ⌊k⌋
(the JS loop runs no iterations when ⌊k⌋ < 0, yielding min 1 0 = 0). -/
noncomputable def poissonCDF (k lambda : ℝ) : ℝ :=
  if lambda ≤ 0 then 1
  else min 1 (∑ i ∈ Finset.range (⌊k⌋ + 1).toNat,
    Real.exp (-lambda) * lambda ^ i / (Nat.factorial i))

/-- Source `getPoissonConfidence`: Poisson confidence multiplier for rare events. -/
noncomputable def getPoissonConfidence (currentValue line playerProgress : ℝ)
    (statType : Option String) : ℝ :=
  match statType with
  | Option.none => 1.0
  | some st =>
    if st ∉ POISSON_STAT_TYPES then 1.0
    else if playerProgress ≤ 0 ∨ 1 ≤ playerProgress then 1.0
    else
      let remaining := max 0 (line - currentValue)
      let remainingProgress := 1 - playerProgress
      let currentRate := if 0.05 < playerProgress then currentValue / playerProgress else 0
      let expectedRemaining := currentRate * remainingProgress
      if expectedRemaining ≤ 0 ∧ 0 < remaining then 0.3
      else if remaining ≤ 0 then 1.5
      else max 0.3 (min 1.5 ((1 - poissonCDF (remaining - 1) expectedRemaining) * 2.0))

/-- Source `getBlowoutFactor`: multiplier on expected minutes in blowouts.
The sequential early returns of the source are flattened into guarded branches
in the same order. -/
noncomputable def getBlowoutFactor (scoreDifferential period : Option ℝ) : ℝ :=
  match scoreDifferential, period with
  | some d, some p =>
    if 3 ≤ p ∧ 25 < d then 0.30
    else if 3 ≤ p ∧ 20 < d then 0.60
    else if 4 ≤ p ∧ 15 < d then 0.50
    else 1.0
  | _, _ => 1.0

/-- Source `getFoulTroubleReduction`: multiplier on expected minutes for foul
trouble (NBA only). -/
noncomputable def getFoulTroubleReduction (personalFouls period : Option ℝ)
    (sport : Option Sport) : ℝ :=
  match sport, personalFouls, period with
  | some Sport.nba, some pf, some p =>
    if p < 4 then
      if 5 ≤ pf then 0.50
      else if 4 ≤ pf then 0.75
      else 1.0
    else 1.0
  | _, _, _ => 1.0

/-- Source `getBayesianProjection`: blends season average with current pace. -/
noncomputable def getBayesianProjection (currentValue playerProgress : ℝ)
    (minutesPlayed : Option ℝ) (seasonAverage : Option ℝ) : ℝ :=
  let currentPace := if 0 < playerProgress then currentValue / playerProgress else 0
  match seasonAverage with
  | Option.none => currentPace
  | some sa =>
    if sa ≤ 0 then currentPace
    else (2.0 * sa + (minutesPlayed.getD 0 / 12) * currentPace) / (2.0 + minutesPlayed.getD 0 / 12)

/-- Source `getSigmoidDampening`: sigmoid fade of the base dampening factor. -/
noncomputable def getSigmoidDampening (baseDampening playerProgress : ℝ) : ℝ :=
  1 + (baseDampening - 1) * (1 - 1 / (1 + Real.exp (-10 * (playerProgress - 0.4))))

/-- Source `getExponentialGameTiming`: exponential early-game weighting. -/
noncomputable def getExponentialGameTiming (playerProgress : ℝ) : ℝ :=
  0.4 + 0.6 * Real.exp (-3 * playerProgress)

/-- Source `getUsageMultiplier`: usage-rate multiplier (NBA only). -/
noncomputable def getUsageMultiplier (usagePercentage : Option ℝ)
    (sport : Option Sport) : ℝ :=
  match sport, usagePercentage with
  | some Sport.nba, some u => 0.7 + u / 100 * 1.5
  | _, _ => 1.0

/-- Source `getGamePaceMultiplier`: game-pace normalization (NBA only). -/
noncomputable def getGamePaceMultiplier (gamePace : Option ℝ)
    (sport : Option Sport) : ℝ :=
  match sport, gamePace with
  | some Sport.nba, some g => g / 100
  | _, _ => 1.0

/-- The floored line `Math.max(pregameLine, 0.1)` of `calculateEdgeScore`. -/
noncomputable def lineOf (input : EdgeInput) : ℝ :=
  max input.pregameLine 0.1

/-- Step 1 of `calculateEdgeScore`: effective expected minutes after the
combined (minimum) blowout / foul-trouble reduction. -/
noncomputable def effectiveExpectedMinutesOf (input : EdgeInput) : ℝ :=
  input.expectedMinutes.getD 0 *
    min (getBlowoutFactor input.scoreDifferential input.period)
      (getFoulTroubleReduction input.personalFouls input.period input.sport)

/-- Step 2 of `calculateEdgeScore`: player progress, preferring
minutes-based measurement and falling back to the game clock. -/
noncomputable def playerProgressOf (input : EdgeInput) : ℝ :=
  match input.minutesPlayed with
  | some minutesPlayed =>
    if 0 < effectiveExpectedMinutesOf input then
      max (minutesPlayed / effectiveExpectedMinutesOf input) 0.01
    else
      match input.expectedMinutes with
      | some expectedMinutes =>
        if 0 < expectedMinutes then max (minutesPlayed / expectedMinutes) 0.01
        else max input.gameElapsedPercent 1 / 100
      | Option.none => max input.gameElapsedPercent 1 / 100
  | Option.none => max input.gameElapsedPercent 1 / 100

/-- Step 3 of `calculateEdgeScore`: the Bayesian pace projection. -/
noncomputable def bayesianProjectionOf (input : EdgeInput) : ℝ :=
  getBayesianProjection input.currentValue (playerProgressOf input)
    input.minutesPlayed input.seasonAverage

/-- Step 4 of `calculateEdgeScore`: pace ratio against the floored line. -/
noncomputable def paceRatioOf (input : EdgeInput) : ℝ :=
  bayesianProjectionOf input / lineOf input

/-- Base dampening from the stat type (`statType ? STAT_DAMPENING[statType] ?? 1.0 : 1.0`). -/
noncomputable def baseDampeningOf (input : EdgeInput) : ℝ :=
  match input.statType with
  | some st => STAT_DAMPENING st
  | Option.none => 1.0

/-- Step 5 of `calculateEdgeScore`: sigmoid-faded stat dampening. -/
noncomputable def statDampeningOf (input : EdgeInput) : ℝ :=
  getSigmoidDampening (baseDampeningOf input) (playerProgressOf input)

/-- Step 5 of `calculateEdgeScore`: dampened pace ratio. -/
noncomputable def adjustedPaceRatioOf (input : EdgeInput) : ℝ :=
  paceRatioOf input / statDampeningOf input

/-- Step 9 of `calculateEdgeScore`: data scarcity multiplier. -/
noncomputable def dataScarcityOf (input : EdgeInput) : ℝ :=
  if input.isRookie.getD false then (1 + 1 / Real.sqrt (input.gamesPlayed + 1)) * 1.2
  else 1 + 1 / Real.sqrt (input.gamesPlayed + 1)

/-- Step 11 of `calculateEdgeScore`: variance penalty. -/
noncomputable def variancePenaltyOf (input : EdgeInput) : ℝ :=
  if 0 < input.historicalStddev.getD 0 then input.historicalStddev.getD 0 / lineOf input
  else 0

/-- Step 12 of `calculateEdgeScore`: raw (unclamped) score. -/
noncomputable def rawScoreOf (input : EdgeInput) : ℝ :=
  adjustedPaceRatioOf input *
    getPoissonConfidence input.currentValue (lineOf input) (playerProgressOf input) input.statType *
    getUsageMultiplier input.usagePercentage input.sport *
    getGamePaceMultiplier input.gamePace input.sport *
    dataScarcityOf input *
    getExponentialGameTiming (playerProgressOf input) -
  variancePenaltyOf input

/-- The clamp `Math.max(0, Math.min(rawScore, 10))`. -/
noncomputable def edgeScoreOf (input : EdgeInput) : ℝ :=
  max 0 (min (rawScoreOf input) 10)

/-- Source `getSignal`: classification of an edge score into a signal tier. -/
noncomputable def getSignal (score : ℝ) : Signal :=
  if score < 1.5 then Signal.none
  else if score < 2.0 then Signal.monitor
  else if score < 3.0 then Signal.good
  else Signal.strong

/-- Source `calculateEdgeScore`: the main edge-scoring engine. -/
noncomputable def calculateEdgeScore (input : EdgeInput) : EdgeResult :=
  { edgeScore := edgeScoreOf input
    pace := input.currentValue / max (playerProgressOf input) 0.01
    projectedFinal := bayesianProjectionOf input
    signal := getSignal (edgeScoreOf input)
    components :=
      { paceRatio := paceRatioOf input
        adjustedPaceRatio := adjustedPaceRatioOf input
        statDampening := statDampeningOf input
        dataScarcity := dataScarcityOf input
        gameTiming := getExponentialGameTiming (playerProgressOf input)
        variancePenalty := variancePenaltyOf input
        bayesianProjection := bayesianProjectionOf input
        blowoutFactor := getBlowoutFactor input.scoreDifferential input.period
        usageMultiplier := getUsageMultiplier input.usagePercentage input.sport
        gamePaceMultiplier := getGamePaceMultiplier input.gamePace input.sport
        poissonConfidence := getPoissonConfidence input.currentValue (lineOf input)
          (playerProgressOf input) input.statType
        foulTroubleReduction := getFoulTroubleReduction input.personalFouls input.period input.sport
        effectiveExpectedMinutes := effectiveExpectedMinutesOf input } }

/-- Alert threshold `EDGE_THRESHOLDS.MONITOR`. -/
noncomputable def EDGE_THRESHOLDS_MONITOR : ℝ := 2.0

/-- Alert threshold `EDGE_THRESHOLDS.GOOD`. -/
noncomputable def EDGE_THRESHOLDS_GOOD : ℝ := 3.0

/-- Source `shouldAlert`: alert decision with crossing suppression. -/
noncomputable def shouldAlert (edgeScore : ℝ) (previousScore : Option ℝ) : Bool :=
  if EDGE_THRESHOLDS_MONITOR ≤ edgeScore then
    match previousScore with
    | some previous =>
      decide (previous < EDGE_THRESHOLDS_MONITOR ∧ EDGE_THRESHOLDS_MONITOR ≤ edgeScore) ||
      decide (previous < EDGE_THRESHOLDS_GOOD ∧ EDGE_THRESHOLDS_GOOD ≤ edgeScore)
    | Option.none => true
  else false

/-! ## The Mateo pace-score calculator (src/lib/algorithm/mateo.ts)

No transcendental functions occur here, so the embedding is over ℚ and
fully computable. -/

/-- The `MateoInput` interface. -/
structure MateoInput where
  currentValue : ℚ
  pregameLine : ℚ
  gameElapsedPercent : ℚ
  minutesPlayed : Option ℚ
  expectedMinutes : Option ℚ
deriving DecidableEq

/-- Pace-score signal tier. -/
inductive MateoSignal
| behind
| on_target
| ahead
| way_ahead
deriving DecidableEq

/-- The `MateoResult` interface. -/
structure MateoResult where
  pacePercent : ℚ
  targetPercent : ℚ
  signal : MateoSignal
deriving DecidableEq

/-- Source `getMateoSignal`: classification of a pace percentage. -/
def getMateoSignal (pacePercent : ℚ) : MateoSignal :=
  if pacePercent < 0.9 then MateoSignal.behind
  else if pacePercent ≤ 1.1 then MateoSignal.on_target
  else if pacePercent ≤ 1.5 then MateoSignal.ahead
  else MateoSignal.way_ahead

/-- Player progress in `calculateMateoScore`: minutes-based when
`minutesPlayed` is defined and `expectedMinutes` is defined, truthy and
positive; otherwise the game-clock fallback.  Both branches carry the
`Math.max(..., 0.01)` floor from the source. -/
def mateoPlayerProgressOf (input : MateoInput) : ℚ :=
  match input.minutesPlayed, input.expectedMinutes with
  | some mp, some em =>
    if 0 < em then max (mp / em) 0.01
    else max (input.gameElapsedPercent / 100) 0.01
  | _, _ => max (input.gameElapsedPercent / 100) 0.01

/-- Source `calculateMateoScore`: the pace-score calculator. -/
def calculateMateoScore (input : MateoInput) : MateoResult :=
  { pacePercent := input.currentValue / max input.pregameLine 0.1 / mateoPlayerProgressOf input
    targetPercent := input.currentValue / max input.pregameLine 0.1
    signal := getMateoSignal
      (input.currentValue / max input.pregameLine 0.1 / mateoPlayerProgressOf input) }

/-- Pace percentage as claimed by the spec sentence for C9: the progress in
the minutes-based branch is `minutesPlayed / expectedMinutes` with NO 0.01
floor (the floor appears only in the fallback branch of the claim). -/
def mateoPacePercentPerClaim (input : MateoInput) : ℚ :=
  (input.currentValue / max input.pregameLine 0.1) /
    (match input.minutesPlayed, input.expectedMinutes with
     | some mp, some em =>
       if 0 < em then mp / em
       else max (input.gameElapsedPercent / 100) 0.01
     | _, _ => max (input.gameElapsedPercent / 100) 0.01)

/-! ## Helper lemmas -/

/-- A typical all-defaults input, used to instantiate universally
quantified theorems at a concrete point. -/
noncomputable def sampleInput1 : EdgeInput :=
  { currentValue := 5, gameElapsedPercent := 50, pregameLine := 20, gamesPlayed := 3,
    historicalStddev := Option.none, isRookie := Option.none, minutesPlayed := Option.none,
    expectedMinutes := Option.none, statType := Option.none, scoreDifferential := Option.none,
    period := Option.none, personalFouls := Option.none, seasonAverage := Option.none,
    usagePercentage := Option.none, gamePace := Option.none, sport := Option.none }

lemma getSignal_rank_mono {a b : ℝ} (h : a ≤ b) :
    (getSignal a).rank ≤ (getSignal b).rank := by
  unfold getSignal
  split_ifs with h1 h2 h3 h4 h5 h6 h7 h8 h9 h10 h11 h12
  all_goals simp only [Signal.rank]
  all_goals try norm_num
  all_goals exfalso
  all_goals linarith

lemma getSignal_cases (e : ℝ) :
    (e < 1.5 → getSignal e = Signal.none)
    ∧ (1.5 ≤ e → e < 2.0 → getSignal e = Signal.monitor)
    ∧ (2.0 ≤ e → e < 3.0 → getSignal e = Signal.good)
    ∧ (3.0 ≤ e → getSignal e = Signal.strong) := by
  unfold getSignal
  refine ⟨fun h1 => by rw [if_pos h1], fun h1 h2 => ?_, fun h1 h2 => ?_, fun h1 => ?_⟩
  · rw [if_neg (by linarith), if_pos h2]
  · rw [if_neg (by linarith), if_neg (by linarith), if_pos h2]
  · rw [if_neg (by linarith), if_neg (by linarith), if_neg (by linarith)]

lemma shouldAlert_below (e : ℝ) (p : Option ℝ) (h : e < 2.0) :
    shouldAlert e p = false := by
  unfold shouldAlert EDGE_THRESHOLDS_MONITOR EDGE_THRESHOLDS_GOOD
  rw [if_neg (by linarith)]

lemma shouldAlert_none_iff (e : ℝ) : shouldAlert e Option.none = true ↔ 2.0 ≤ e := by
  unfold shouldAlert EDGE_THRESHOLDS_MONITOR EDGE_THRESHOLDS_GOOD
  split_ifs with h1 <;> simpa using h1

lemma shouldAlert_some_iff (e q : ℝ) :
    shouldAlert e (some q) = true ↔ (q < 2.0 ∧ 2.0 ≤ e) ∨ (q < 3.0 ∧ 3.0 ≤ e) := by
  unfold shouldAlert EDGE_THRESHOLDS_MONITOR EDGE_THRESHOLDS_GOOD
  split_ifs with h1
  · simp only [Bool.or_eq_true, decide_eq_true_eq]
  · simp only [Bool.false_eq_true, false_iff]
    rintro (⟨h2, h3⟩ | ⟨h2, h3⟩)
    · exact h1 h3
    · exact h1 (by linarith)

/-! ## Claim theorems -/

/-- C1: for every input whose fields lie in the documented domains
(currentValue ≥ 0, gamesPlayed ≥ 0, gameElapsedPercent ∈ [0,100], optional
minutes/stddev/usage/pace fields ≥ 0 when present), the returned edgeScore
satisfies 0 ≤ edgeScore ≤ 10 (a finite real number). -/
theorem edge_score_bounded (input : EdgeInput)
    (hcv : 0 ≤ input.currentValue) (hgp : 0 ≤ input.gamesPlayed)
    (hge0 : 0 ≤ input.gameElapsedPercent) (hge1 : input.gameElapsedPercent ≤ 100)
    (hmin : ∀ x ∈ input.minutesPlayed, 0 ≤ x)
    (hem : ∀ x ∈ input.expectedMinutes, 0 ≤ x)
    (hsd : ∀ x ∈ input.historicalStddev, 0 ≤ x)
    (husg : ∀ x ∈ input.usagePercentage, 0 ≤ x)
    (hpace : ∀ x ∈ input.gamePace, 0 ≤ x) :
    0 ≤ (calculateEdgeScore input).edgeScore ∧ (calculateEdgeScore input).edgeScore ≤ 10 := by
  have h : (calculateEdgeScore input).edgeScore = max 0 (min (rawScoreOf input) 10) := rfl
  rw [h]
  exact ⟨le_max_left 0 _, max_le (by norm_num) (min_le_right _ _)⟩

/-- C1 witness: the bound evaluated at a concrete input. -/
theorem edge_score_bounded_witness :
    (0 : ℝ) ≤ sampleInput1.currentValue
    ∧ 0 ≤ (calculateEdgeScore sampleInput1).edgeScore
    ∧ (calculateEdgeScore sampleInput1).edgeScore ≤ 10 :=
  ⟨by norm_num [sampleInput1],
    (edge_score_bounded sampleInput1 (by norm_num [sampleInput1]) (by norm_num [sampleInput1])
      (by norm_num [sampleInput1]) (by norm_num [sampleInput1]) (by simp [sampleInput1])
      (by simp [sampleInput1]) (by simp [sampleInput1]) (by simp [sampleInput1])
      (by simp [sampleInput1])).1,
    (edge_score_bounded sampleInput1 (by norm_num [sampleInput1]) (by norm_num [sampleInput1])
      (by norm_num [sampleInput1]) (by norm_num [sampleInput1]) (by simp [sampleInput1])
      (by simp [sampleInput1]) (by simp [sampleInput1]) (by simp [sampleInput1])
      (by simp [sampleInput1])).2⟩

/-- C2: the signal of every result is determined solely by edgeScore via the
fixed classification (none below 1.5, monitor below 2.0, good below 3.0, else
strong), and the tier is monotone in the score under
none < monitor < good < strong. -/
theorem signal_classification_monotone (input : EdgeInput) (e1 e2 : ℝ) (h : e1 ≤ e2) :
    (calculateEdgeScore input).signal = getSignal (calculateEdgeScore input).edgeScore
    ∧ (∀ e : ℝ, (e < 1.5 → getSignal e = Signal.none)
        ∧ (1.5 ≤ e → e < 2.0 → getSignal e = Signal.monitor)
        ∧ (2.0 ≤ e → e < 3.0 → getSignal e = Signal.good)
        ∧ (3.0 ≤ e → getSignal e = Signal.strong))
    ∧ (getSignal e1).rank ≤ (getSignal e2).rank :=
  ⟨rfl, getSignal_cases, getSignal_rank_mono h⟩

/-- C2 witness: monotonicity instantiated at 1 ≤ 2. -/
theorem signal_classification_monotone_witness :
    (1 : ℝ) ≤ 2 ∧ (getSignal 1).rank ≤ (getSignal 2).rank :=
  ⟨by norm_num, (signal_classification_monotone sampleInput1 1 2 (by norm_num)).2.2⟩

/-- C3: shouldAlert returns false below 2.0; with no previous score it is
true iff edgeScore ≥ 2.0; with a previous score it is true iff an upward
crossing of 2.0 or 3.0 occurred; in particular shouldAlert(2.5, 2.2) = false,
shouldAlert(2.5, 1.9) = true, shouldAlert(3.5, 2.5) = true. -/
theorem shouldAlert_spec (e q : ℝ) (p : Option ℝ) :
    (e < 2.0 → shouldAlert e p = false)
    ∧ (shouldAlert e Option.none = true ↔ 2.0 ≤ e)
    ∧ (shouldAlert e (some q) = true ↔ (q < 2.0 ∧ 2.0 ≤ e) ∨ (q < 3.0 ∧ 3.0 ≤ e))
    ∧ shouldAlert 2.5 (some 2.2) = false
    ∧ shouldAlert 2.5 (some 1.9) = true
    ∧ shouldAlert 3.5 (some 2.5) = true := by
  refine ⟨shouldAlert_below e p, shouldAlert_none_iff e, shouldAlert_some_iff e q, ?_, ?_, ?_⟩
  · rw [Bool.eq_false_iff, Ne, shouldAlert_some_iff]
    push_neg
    norm_num
  · exact (shouldAlert_some_iff 2.5 1.9).mpr (Or.inl ⟨by norm_num, by norm_num⟩)
  · exact (shouldAlert_some_iff 3.5 2.5).mpr (Or.inr ⟨by norm_num, by norm_num⟩)

/-- C3 witness: a sub-threshold score does not alert. -/
theorem shouldAlert_spec_witness : shouldAlert 1 Option.none = false :=
  (shouldAlert_spec 1 0 Option.none).1 (by norm_num)

lemma getPoissonConfidence_mem (cv line p : ℝ) (st : Option String) :
    0.3 ≤ getPoissonConfidence cv line p st ∧ getPoissonConfidence cv line p st ≤ 1.5 := by
  unfold getPoissonConfidence
  rcases st with _ | s
  · norm_num
  · dsimp only
    split_ifs
    all_goals first
      | exact ⟨le_max_left _ _, max_le (by norm_num) (min_le_left _ _)⟩
      | norm_num

lemma getPoissonConfidence_not_poisson (cv line p : ℝ) (s : String)
    (hs : s ∉ POISSON_STAT_TYPES) :
    getPoissonConfidence cv line p (some s) = 1.0 := by
  dsimp only [getPoissonConfidence]
  rw [if_pos hs]

lemma getPoissonConfidence_progress_out (cv line p : ℝ) (st : Option String)
    (hp : p ≤ 0 ∨ 1 ≤ p) :
    getPoissonConfidence cv line p st = 1.0 := by
  rcases st with _ | s
  · rfl
  · by_cases hs : s ∈ POISSON_STAT_TYPES
    · dsimp only [getPoissonConfidence]
      rw [if_neg (not_not_intro hs), if_pos hp]
    · exact getPoissonConfidence_not_poisson cv line p s hs

lemma getPoissonConfidence_target_met (cv line p : ℝ) (s : String)
    (hs : s ∈ POISSON_STAT_TYPES) (h0 : 0 < p) (h1 : p < 1) (hcv : line ≤ cv) :
    getPoissonConfidence cv line p (some s) = 1.5 := by
  dsimp only [getPoissonConfidence]
  rw [if_neg (not_not_intro hs), if_neg (by push_neg; exact ⟨h0, h1⟩)]
  have hrem : max 0 (line - cv) = 0 := max_eq_left (by linarith)
  rw [hrem]
  rw [if_neg (fun hc => lt_irrefl 0 hc.2), if_pos le_rfl]

lemma getPoissonConfidence_zero_rate (line p : ℝ) (s : String)
    (hs : s ∈ POISSON_STAT_TYPES) (h0 : 0 < p) (h1 : p < 1) (hline : 0 < line) :
    getPoissonConfidence 0 line p (some s) = 0.3 := by
  dsimp only [getPoissonConfidence]
  rw [if_neg (not_not_intro hs), if_neg (by push_neg; exact ⟨h0, h1⟩)]
  have hrate : (if (0.05:ℝ) < p then (0:ℝ) / p else 0) = 0 := by split_ifs <;> simp
  rw [if_pos ⟨by rw [hrate]; norm_num, lt_max_of_lt_right (by linarith)⟩]

/-- C4: the Poisson confidence lies in [0.3, 1.5] for every input (and so
does the poissonConfidence component of every result), and is exactly 1.0
when statType is absent, when statType is not Poisson-eligible, or when
player progress is ≤ 0 or ≥ 1. -/
theorem poisson_confidence_bounds (input : EdgeInput) (cv line p : ℝ)
    (st : Option String) (s : String) :
    (0.3 ≤ getPoissonConfidence cv line p st ∧ getPoissonConfidence cv line p st ≤ 1.5)
    ∧ (0.3 ≤ (calculateEdgeScore input).components.poissonConfidence
        ∧ (calculateEdgeScore input).components.poissonConfidence ≤ 1.5)
    ∧ getPoissonConfidence cv line p Option.none = 1.0
    ∧ (s ∉ POISSON_STAT_TYPES → getPoissonConfidence cv line p (some s) = 1.0)
    ∧ ((p ≤ 0 ∨ 1 ≤ p) → getPoissonConfidence cv line p st = 1.0) :=
  ⟨getPoissonConfidence_mem cv line p st,
    getPoissonConfidence_mem input.currentValue (lineOf input) (playerProgressOf input)
      input.statType,
    rfl,
    getPoissonConfidence_not_poisson cv line p s,
    getPoissonConfidence_progress_out cv line p st⟩

/-- C4 witness: the confidence is 1.0 for a non-Poisson stat type. -/
theorem poisson_confidence_bounds_witness :
    reboundsStat ∉ POISSON_STAT_TYPES
    ∧ getPoissonConfidence 1 2 (1/2) (some reboundsStat) = 1.0 :=
  ⟨by decide,
    (poisson_confidence_bounds sampleInput1 1 2 (1/2) (some reboundsStat) reboundsStat).2.2.2.1
      (by decide)⟩

/-- An input with a Poisson-eligible stat type where the current value has
already reached the raw pregame line (0 ≥ 0) but not the floored line 0.1:
the confidence comes out 0.3, not the claimed 1.5. -/
noncomputable def poissonCounterInput : EdgeInput :=
  { currentValue := 0, gameElapsedPercent := 50, pregameLine := 0, gamesPlayed := 0,
    historicalStddev := Option.none, isRookie := Option.none, minutesPlayed := Option.none,
    expectedMinutes := Option.none, statType := some stealsStat, scoreDifferential := Option.none,
    period := Option.none, personalFouls := Option.none, seasonAverage := Option.none,
    usagePercentage := Option.none, gamePace := Option.none, sport := Option.none }

lemma poissonCounterInput_progress : playerProgressOf poissonCounterInput = 1/2 := by
  dsimp only [playerProgressOf, poissonCounterInput]
  rw [max_eq_left (by norm_num : (1:ℝ) ≤ 50)]
  norm_num

/-- C5 counterexample: with stat type steals, player progress 1/2 and
currentValue = 0 ≥ 0 = pregameLine, the Poisson confidence component of
calculateEdgeScore is 0.3, not 1.5 — the claim fails because the code
compares currentValue against the floored line max(pregameLine, 0.1),
and the zero current rate hits the 0.3 early return. -/
theorem poisson_target_met_counterexample :
    poissonCounterInput.pregameLine ≤ poissonCounterInput.currentValue
    ∧ poissonCounterInput.statType = some stealsStat
    ∧ stealsStat ∈ POISSON_STAT_TYPES
    ∧ 0 < playerProgressOf poissonCounterInput
    ∧ playerProgressOf poissonCounterInput < 1
    ∧ (calculateEdgeScore poissonCounterInput).components.poissonConfidence = 0.3
    ∧ (0.3 : ℝ) ≠ 1.5 := by
  refine ⟨by norm_num [poissonCounterInput], rfl, by decide, ?_, ?_, ?_, by norm_num⟩
  · rw [poissonCounterInput_progress]; norm_num
  · rw [poissonCounterInput_progress]; norm_num
  · have h : (calculateEdgeScore poissonCounterInput).components.poissonConfidence
        = getPoissonConfidence 0 (max 0 0.1) (playerProgressOf poissonCounterInput)
          (some stealsStat) := rfl
    rw [h, poissonCounterInput_progress]
    exact getPoissonConfidence_zero_rate (max 0 0.1) (1/2) stealsStat (by decide)
      (by norm_num) (by norm_num) (lt_max_of_lt_right (by norm_num))

/-- C5 amended: for a Poisson-eligible stat type with player progress
strictly between 0 and 1, if currentValue ≥ max(pregameLine, 0.1) (the
floored line actually used by the engine) then the Poisson confidence
component equals exactly 1.5. -/
theorem poisson_target_met_amended (input : EdgeInput) (s : String)
    (hstat : input.statType = some s) (hs : s ∈ POISSON_STAT_TYPES)
    (h0 : 0 < playerProgressOf input) (h1 : playerProgressOf input < 1)
    (hcv : max input.pregameLine 0.1 ≤ input.currentValue) :
    (calculateEdgeScore input).components.poissonConfidence = 1.5 := by
  have h : (calculateEdgeScore input).components.poissonConfidence
      = getPoissonConfidence input.currentValue (lineOf input) (playerProgressOf input)
        input.statType := rfl
  rw [h, hstat]
  exact getPoissonConfidence_target_met _ _ _ _ hs h0 h1 hcv

/-- Concrete input for the amended C5 theorem: a steals line of 5 already
reached by a current value of 10 at progress 1/2. -/
noncomputable def targetMetInput : EdgeInput :=
  { currentValue := 10, gameElapsedPercent := 50, pregameLine := 5, gamesPlayed := 0,
    historicalStddev := Option.none, isRookie := Option.none, minutesPlayed := Option.none,
    expectedMinutes := Option.none, statType := some stealsStat, scoreDifferential := Option.none,
    period := Option.none, personalFouls := Option.none, seasonAverage := Option.none,
    usagePercentage := Option.none, gamePace := Option.none, sport := Option.none }

lemma targetMetInput_progress : playerProgressOf targetMetInput = 1/2 := by
  dsimp only [playerProgressOf, targetMetInput]
  rw [max_eq_left (by norm_num : (1:ℝ) ≤ 50)]
  norm_num

/-- C5 witness for the amended theorem: confidence is exactly 1.5 at the
concrete target-met input. -/
theorem poisson_target_met_amended_witness :
    0 < playerProgressOf targetMetInput
    ∧ playerProgressOf targetMetInput < 1
    ∧ (calculateEdgeScore targetMetInput).components.poissonConfidence = 1.5 :=
  ⟨by rw [targetMetInput_progress]; norm_num,
    by rw [targetMetInput_progress]; norm_num,
    poisson_target_met_amended targetMetInput stealsStat rfl (by decide)
      (by rw [targetMetInput_progress]; norm_num)
      (by rw [targetMetInput_progress]; norm_num)
      (by simp only [targetMetInput]; exact max_le (by norm_num) (by norm_num))⟩

/-- C6: the blowout factor follows the sequential checks of the source
(0.30 for period ≥ 3 and differential > 25; else 0.60 for period ≥ 3 and
differential > 20; else 0.50 for period ≥ 4 and differential > 15; else
1.0); a period-4 differential-22 game yields 0.60, and a missing input
yields 1.0. -/
theorem blowout_factor_spec (d p : ℝ) (od op : Option ℝ) :
    (3 ≤ p → 25 < d → getBlowoutFactor (some d) (some p) = 0.30)
    ∧ (3 ≤ p → 20 < d → d ≤ 25 → getBlowoutFactor (some d) (some p) = 0.60)
    ∧ (4 ≤ p → 15 < d → d ≤ 20 → getBlowoutFactor (some d) (some p) = 0.50)
    ∧ (¬(3 ≤ p ∧ 25 < d) → ¬(3 ≤ p ∧ 20 < d) → ¬(4 ≤ p ∧ 15 < d) →
        getBlowoutFactor (some d) (some p) = 1.0)
    ∧ getBlowoutFactor (some 22) (some 4) = 0.60
    ∧ getBlowoutFactor od Option.none = 1.0
    ∧ getBlowoutFactor Option.none op = 1.0 := by
  refine ⟨fun h1 h2 => ?_, fun h1 h2 h3 => ?_, fun h1 h2 h3 => ?_, fun h1 h2 h3 => ?_, ?_, ?_, ?_⟩
  · dsimp only [getBlowoutFactor]
    rw [if_pos ⟨h1, h2⟩]
  · dsimp only [getBlowoutFactor]
    rw [if_neg (fun hc => absurd hc.2 (by linarith)), if_pos ⟨h1, h2⟩]
  · dsimp only [getBlowoutFactor]
    rw [if_neg (fun hc => absurd hc.2 (by linarith)),
      if_neg (fun hc => absurd hc.2 (by linarith)), if_pos ⟨h1, h2⟩]
  · dsimp only [getBlowoutFactor]
    rw [if_neg h1, if_neg h2, if_neg h3]
  · dsimp only [getBlowoutFactor]
    rw [if_neg (fun hc => absurd hc.2 (by norm_num)), if_pos ⟨by norm_num, by norm_num⟩]
  · rcases od with _ | d2 <;> rfl
  · rcases op with _ | p2 <;> rfl

/-- C6 witness: a period-3 30-point blowout yields the 0.30 factor. -/
theorem blowout_factor_spec_witness :
    (3:ℝ) ≤ 3 ∧ (25:ℝ) < 30 ∧ getBlowoutFactor (some 30) (some 3) = 0.30 :=
  ⟨by norm_num, by norm_num,
    (blowout_factor_spec 30 3 Option.none Option.none).1 (by norm_num) (by norm_num)⟩

lemma getBlowoutFactor_mem (od op : Option ℝ) :
    0 < getBlowoutFactor od op ∧ getBlowoutFactor od op ≤ 1 := by
  unfold getBlowoutFactor
  rcases od with _ | d <;> rcases op with _ | p <;> try norm_num
  split_ifs <;> norm_num

lemma getFoulTroubleReduction_mem (opf op : Option ℝ) (os : Option Sport) :
    0 < getFoulTroubleReduction opf op os ∧ getFoulTroubleReduction opf op os ≤ 1 := by
  unfold getFoulTroubleReduction
  rcases os with _ | s
  · norm_num
  · cases s
    · rcases opf with _ | pf <;> rcases op with _ | p <;> try norm_num
      split_ifs <;> norm_num
    · rcases opf with _ | pf <;> rcases op with _ | p <;> norm_num

/-- C7: the combined minutes reduction is min(blowoutFactor,
foulTroubleReduction), both factors lie in (0, 1], and the effective
expected minutes (expectedMinutes × reduction, 0 when expectedMinutes is
absent) never exceed expectedMinutes. -/
theorem minutes_reduction_spec (input : EdgeInput)
    (hem : ∀ x ∈ input.expectedMinutes, 0 ≤ x) :
    (calculateEdgeScore input).components.effectiveExpectedMinutes
      = input.expectedMinutes.getD 0 *
        min (calculateEdgeScore input).components.blowoutFactor
          (calculateEdgeScore input).components.foulTroubleReduction
    ∧ 0 < (calculateEdgeScore input).components.blowoutFactor
    ∧ (calculateEdgeScore input).components.blowoutFactor ≤ 1
    ∧ 0 < (calculateEdgeScore input).components.foulTroubleReduction
    ∧ (calculateEdgeScore input).components.foulTroubleReduction ≤ 1
    ∧ (calculateEdgeScore input).components.effectiveExpectedMinutes
        ≤ input.expectedMinutes.getD 0 := by
  have hb := getBlowoutFactor_mem input.scoreDifferential input.period
  have hf := getFoulTroubleReduction_mem input.personalFouls input.period input.sport
  have hem0 : 0 ≤ input.expectedMinutes.getD 0 := by
    cases hx : input.expectedMinutes with
    | none => simp
    | some x => simpa [hx] using hem x (by simp [hx])
  refine ⟨rfl, hb.1, hb.2, hf.1, hf.2, ?_⟩
  have hmin1 : min (getBlowoutFactor input.scoreDifferential input.period)
      (getFoulTroubleReduction input.personalFouls input.period input.sport) ≤ 1 :=
    le_trans (min_le_left _ _) hb.2
  calc (calculateEdgeScore input).components.effectiveExpectedMinutes
      = input.expectedMinutes.getD 0 *
        min (getBlowoutFactor input.scoreDifferential input.period)
          (getFoulTroubleReduction input.personalFouls input.period input.sport) := rfl
    _ ≤ input.expectedMinutes.getD 0 * 1 := mul_le_mul_of_nonneg_left hmin1 hem0
    _ = input.expectedMinutes.getD 0 := mul_one _

/-- C7 witness: evaluated at a no-blowout input with expected minutes 30. -/
noncomputable def minutesInput : EdgeInput :=
  { currentValue := 5, gameElapsedPercent := 50, pregameLine := 20, gamesPlayed := 3,
    historicalStddev := Option.none, isRookie := Option.none, minutesPlayed := some 15,
    expectedMinutes := some 30, statType := Option.none, scoreDifferential := Option.none,
    period := Option.none, personalFouls := Option.none, seasonAverage := Option.none,
    usagePercentage := Option.none, gamePace := Option.none, sport := Option.none }

/-- C7 witness theorem. -/
theorem minutes_reduction_spec_witness :
    (calculateEdgeScore minutesInput).components.effectiveExpectedMinutes
      ≤ minutesInput.expectedMinutes.getD 0 :=
  (minutes_reduction_spec minutesInput (by simp [minutesInput])).2.2.2.2.2

lemma playerProgressOf_ge (input : EdgeInput) : 0.01 ≤ playerProgressOf input := by
  unfold playerProgressOf
  rcases hmp : input.minutesPlayed with _ | mp
  · have h1 : (1:ℝ) ≤ max input.gameElapsedPercent 1 := le_max_right _ _
    linarith
  · split_ifs with h1
    · exact le_max_right _ _
    · rcases hem : input.expectedMinutes with _ | em
      · have h2 : (1:ℝ) ≤ max input.gameElapsedPercent 1 := le_max_right _ _
        dsimp only
        linarith
      · dsimp only
        split_ifs with h3
        · exact le_max_right _ _
        · have h2 : (1:ℝ) ≤ max input.gameElapsedPercent 1 := le_max_right _ _
          linarith

/-- C8: the engine divides only by guarded quantities: the line is floored
to at least 0.1, the player progress to at least 0.01, the pace ratio is
projectedFinal over the floored line, and when pregameLine ≤ 0.1 (e.g.
pregameLine = 0) the pace ratio equals projectedFinal / 0.1 — no division
by zero occurs. -/
theorem division_safety (input : EdgeInput) (h : input.pregameLine ≤ 0.1) :
    (0.1 : ℝ) ≤ lineOf input
    ∧ 0.01 ≤ playerProgressOf input
    ∧ (calculateEdgeScore input).components.paceRatio
        = (calculateEdgeScore input).projectedFinal / lineOf input
    ∧ (calculateEdgeScore input).components.paceRatio
        = (calculateEdgeScore input).projectedFinal / 0.1 := by
  refine ⟨le_max_right _ _, playerProgressOf_ge input, rfl, ?_⟩
  have hl : lineOf input = 0.1 := max_eq_right h
  calc (calculateEdgeScore input).components.paceRatio
      = (calculateEdgeScore input).projectedFinal / lineOf input := rfl
    _ = (calculateEdgeScore input).projectedFinal / 0.1 := by rw [hl]

/-- C8 witness input: a zero pregame line. -/
noncomputable def zeroLineInput : EdgeInput :=
  { currentValue := 10, gameElapsedPercent := 50, pregameLine := 0, gamesPlayed := 2,
    historicalStddev := Option.none, isRookie := Option.none, minutesPlayed := Option.none,
    expectedMinutes := Option.none, statType := Option.none, scoreDifferential := Option.none,
    period := Option.none, personalFouls := Option.none, seasonAverage := Option.none,
    usagePercentage := Option.none, gamePace := Option.none, sport := Option.none }

/-- C8 witness theorem: pregameLine = 0 still produces a pace ratio over
the floored line 0.1. -/
theorem division_safety_witness :
    zeroLineInput.pregameLine ≤ (0.1 : ℝ)
    ∧ (calculateEdgeScore zeroLineInput).components.paceRatio
        = (calculateEdgeScore zeroLineInput).projectedFinal / 0.1 :=
  ⟨by norm_num [zeroLineInput],
    (division_safety zeroLineInput (by norm_num [zeroLineInput])).2.2.2⟩

/-- C10: with a positive season average supplied and minutesPlayed absent
or nonnegative, the Bayesian projection is the weighted blend
(2·sa + (minutes/12)·pace) / (2 + minutes/12), hence lies weakly between
min and max of the season average and the observed pace currentValue /
progress, and equals the season average exactly when minutesPlayed is
absent. -/
theorem bayesian_projection_convex (cv progress sa : ℝ) (mp : Option ℝ)
    (hprog : 0 < progress) (hsa : 0 < sa) (hmp : ∀ x ∈ mp, 0 ≤ x) :
    min sa (cv / progress) ≤ getBayesianProjection cv progress mp (some sa)
    ∧ getBayesianProjection cv progress mp (some sa) ≤ max sa (cv / progress)
    ∧ (mp = Option.none → getBayesianProjection cv progress mp (some sa) = sa) := by
  have hw : 0 ≤ mp.getD 0 / 12 := by
    cases hx : mp with
    | none => norm_num
    | some x =>
      have := hmp x (by simp [hx])
      simp only [hx, Option.getD_some]
      linarith
  have hproj : getBayesianProjection cv progress mp (some sa)
      = (2.0 * sa + (mp.getD 0 / 12) * (cv / progress)) / (2.0 + mp.getD 0 / 12) := by
    dsimp only [getBayesianProjection]
    rw [if_pos hprog, if_neg (not_le.mpr hsa)]
  have h2w : (0:ℝ) < 2.0 + mp.getD 0 / 12 := by norm_num; linarith
  refine ⟨?_, ?_, ?_⟩
  · rw [hproj, le_div_iff h2w]
    have hmul : (mp.getD 0 / 12) * min sa (cv / progress) ≤ (mp.getD 0 / 12) * (cv / progress) :=
      mul_le_mul_of_nonneg_left (min_le_right _ _) hw
    nlinarith [min_le_left sa (cv / progress)]
  · rw [hproj, div_le_iff h2w]
    have hmul : (mp.getD 0 / 12) * (cv / progress) ≤ (mp.getD 0 / 12) * max sa (cv / progress) :=
      mul_le_mul_of_nonneg_left (le_max_right _ _) hw
    nlinarith [le_max_left sa (cv / progress)]
  · intro hnone
    subst hnone
    rw [hproj]
    norm_num

/-- C10 witness: blend of season average 3 with pace 10 at 6 minutes. -/
theorem bayesian_projection_convex_witness :
    (0:ℝ) < (1/2 : ℝ)
    ∧ (0:ℝ) < (3:ℝ)
    ∧ min (3:ℝ) ((5:ℝ) / (1/2)) ≤ getBayesianProjection 5 (1/2) (some 6) (some 3)
    ∧ getBayesianProjection 5 (1/2) (some 6) (some 3) ≤ max (3:ℝ) ((5:ℝ) / (1/2)) :=
  ⟨by norm_num, by norm_num,
    (bayesian_projection_convex 5 (1/2) 3 (some 6) (by norm_num) (by norm_num)
      (by intro x hx; simp at hx; subst hx; norm_num)).1,
    (bayesian_projection_convex 5 (1/2) 3 (some 6) (by norm_num) (by norm_num)
      (by intro x hx; simp at hx; subst hx; norm_num)).2.1⟩

/-- The C9 counterexample input: zero minutes played so far out of an
expected 32, with half the line already achieved. -/
def mateoCounterInput : MateoInput :=
  { currentValue := 10, pregameLine := 20, gameElapsedPercent := 50,
    minutesPlayed := some 0, expectedMinutes := some 32 }

lemma mateoCounterInput_progress : mateoPlayerProgressOf mateoCounterInput = 0.01 := by
  show (if (0:ℚ) < 32 then max ((0:ℚ) / 32) 0.01
    else max ((50:ℚ) / 100) 0.01) = 0.01
  rw [if_pos (by norm_num), max_eq_right (by norm_num)]

lemma mateoCounterInput_pace : (calculateMateoScore mateoCounterInput).pacePercent = 50 := by
  show (10:ℚ) / max 20 0.1 / mateoPlayerProgressOf mateoCounterInput = 50
  rw [mateoCounterInput_progress, max_eq_left (by norm_num)]
  norm_num

/-- C9 counterexample: at minutesPlayed = 0 and expectedMinutes = 32 the
code floors progress to 0.01 and returns pacePercent = 50, while the
un-floored minutes-based progress minutesPlayed/expectedMinutes of the claim
is 0, making its pacePercent formula a division by zero (value 0 in this
total embedding): the claim as stated fails on the code. -/
theorem mateo_pace_counterexample :
    (calculateMateoScore mateoCounterInput).pacePercent = 50
    ∧ mateoPlayerProgressOf mateoCounterInput = 0.01
    ∧ mateoPacePercentPerClaim mateoCounterInput = 0
    ∧ (calculateMateoScore mateoCounterInput).pacePercent
        ≠ mateoPacePercentPerClaim mateoCounterInput := by
  have hclaim : mateoPacePercentPerClaim mateoCounterInput = 0 := by
    show ((10:ℚ) / max 20 0.1) / (if (0:ℚ) < 32 then (0:ℚ) / 32
      else max ((50:ℚ) / 100) 0.01) = 0
    rw [if_pos (by norm_num)]
    norm_num
  refine ⟨mateoCounterInput_pace, mateoCounterInput_progress, hclaim, ?_⟩
  rw [mateoCounterInput_pace, hclaim]
  norm_num

/-- The example input of the claim: 10 of a 20 line at 50% game clock. -/
def mateoExampleInput : MateoInput :=
  { currentValue := 10, pregameLine := 20, gameElapsedPercent := 50,
    minutesPlayed := Option.none, expectedMinutes := Option.none }

lemma mateoExampleInput_pace : (calculateMateoScore mateoExampleInput).pacePercent = 1 := by
  show (10:ℚ) / max 20 0.1 / mateoPlayerProgressOf mateoExampleInput = 1
  have hprog : mateoPlayerProgressOf mateoExampleInput = 1/2 := by
    show max ((50:ℚ) / 100) 0.01 = 1/2
    rw [max_eq_left (by norm_num)]
    norm_num
  rw [hprog, max_eq_left (by norm_num)]
  norm_num

lemma mateoExampleInput_signal :
    (calculateMateoScore mateoExampleInput).signal = MateoSignal.on_target := by
  have h0 : (calculateMateoScore mateoExampleInput).signal
      = getMateoSignal ((calculateMateoScore mateoExampleInput).pacePercent) := rfl
  rw [h0, mateoExampleInput_pace]
  dsimp only [getMateoSignal]
  rw [if_neg (by norm_num), if_pos (by norm_num)]

/-- C9 amended: the pace calculator computes targetPercent =
currentValue / max(pregameLine, 0.1) and pacePercent = targetPercent /
progress, where progress is max(minutesPlayed/expectedMinutes, 0.01) when
both minutes fields are available (expectedMinutes > 0) and
max(gameElapsedPercent/100, 0.01) otherwise, with the claimed
classification thresholds; the concrete example yields pacePercent 1 and
signal on_target. -/
theorem mateo_pace_amended (input : MateoInput) (mp em x : ℚ) :
    (calculateMateoScore input).targetPercent
      = input.currentValue / max input.pregameLine 0.1
    ∧ (calculateMateoScore input).pacePercent
        = (calculateMateoScore input).targetPercent / mateoPlayerProgressOf input
    ∧ (input.minutesPlayed = some mp → input.expectedMinutes = some em → 0 < em →
        mateoPlayerProgressOf input = max (mp / em) 0.01)
    ∧ (input.minutesPlayed = Option.none →
        mateoPlayerProgressOf input = max (input.gameElapsedPercent / 100) 0.01)
    ∧ (input.expectedMinutes = Option.none →
        mateoPlayerProgressOf input = max (input.gameElapsedPercent / 100) 0.01)
    ∧ (input.minutesPlayed = some mp → input.expectedMinutes = some em → em ≤ 0 →
        mateoPlayerProgressOf input = max (input.gameElapsedPercent / 100) 0.01)
    ∧ ((x < 0.9 → getMateoSignal x = MateoSignal.behind)
        ∧ (0.9 ≤ x → x ≤ 1.1 → getMateoSignal x = MateoSignal.on_target)
        ∧ (1.1 < x → x ≤ 1.5 → getMateoSignal x = MateoSignal.ahead)
        ∧ (1.5 < x → getMateoSignal x = MateoSignal.way_ahead))
    ∧ (calculateMateoScore mateoExampleInput).pacePercent = 1
    ∧ (calculateMateoScore mateoExampleInput).signal = MateoSignal.on_target := by
  refine ⟨rfl, rfl, fun h1 h2 h3 => ?_, fun h1 => ?_, fun h1 => ?_, fun h1 h2 h3 => ?_,
    ⟨fun hx => ?_, fun hx1 hx2 => ?_,
    fun hx1 hx2 => ?_, fun hx => ?_⟩, mateoExampleInput_pace, mateoExampleInput_signal⟩
  · simp only [mateoPlayerProgressOf, h1, h2]
    rw [if_pos h3]
  · cases hem : input.expectedMinutes <;> simp [mateoPlayerProgressOf, h1, hem]
  · cases hmp : input.minutesPlayed <;> simp [mateoPlayerProgressOf, hmp, h1]
  · simp only [mateoPlayerProgressOf, h1, h2]
    rw [if_neg (not_lt.mpr h3)]
  · dsimp only [getMateoSignal]
    rw [if_pos hx]
  · dsimp only [getMateoSignal]
    rw [if_neg (by linarith), if_pos hx2]
  · dsimp only [getMateoSignal]
    rw [if_neg (by linarith), if_neg (by linarith), if_pos hx2]
  · dsimp only [getMateoSignal]
    rw [if_neg (by linarith), if_neg (by linarith), if_neg (by linarith)]

/-- C9 witness for the amended theorem: the minutes-based branch with its
floor, evaluated at minutesPlayed = 0, expectedMinutes = 32. -/
theorem mateo_pace_amended_witness :
    mateoCounterInput.minutesPlayed = some 0
    ∧ mateoCounterInput.expectedMinutes = some 32
    ∧ (0:ℚ) < 32
    ∧ mateoPlayerProgressOf mateoCounterInput = max ((0:ℚ) / 32) 0.01 :=
  ⟨rfl, rfl, by norm_num,
    (mateo_pace_amended mateoCounterInput 0 32 0).2.2.1 rfl rfl (by norm_num)⟩

end DeezStats
